import Mathlib

/-!
Verification development for the `fiap-tech-challenge-auth` service.

The program under study is `src/index.ts`: four AWS Lambda request handlers
(`authorize`, `authenticate`, `register`, `confirm`) fronting AWS Cognito,
plus the pure helper `calculateSecretHash`.  `serverless.yml` wires the
deployed endpoints to `dist/index.*`, i.e. to the compiled `src/index.ts`,
so that file is the authoritative implementation embedded here.  The
repository also carries an unnamed variant of the same handlers (with a
`respond` helper and fallback messages); where the two differ, the embedding
follows the deployed `src/index.ts` and the difference is noted.

External collaborators are modelled explicitly:
* `JSON.parse` / JS truthiness / JS string coercion — by a small JSON value
  type `JsValue`, a fuel-based parser `parseJson`, `truthy` and `jsToString`.
  The parser covers the JSON fragment exercised here (literals, integer
  numbers, strings with the single-character escapes, arrays, objects);
  fractional numbers and `\u` escapes are outside the model.
* the Cognito client — by oracle functions from the exact request record the
  handler builds to a provider outcome (success payload or failure reason).
* `crypto.createHmac('sha256', k).update(m).digest('base64')` — by a full
  executable SHA-256 / HMAC / base64 implementation over byte lists.

Handlers return an `Except`: `.ok` is a returned HTTP response, `.error` is
an uncaught JavaScript exception escaping the handler (`JSON.parse` throws
on malformed bodies, destructuring throws on `null` — both sit outside the
`try` blocks in the source).  Each run also records the list of provider
calls made, so "no call to the identity provider" is a statement about the
recorded trace.
-/

namespace TCAuth

/-- JavaScript values as far as the handlers observe them: the possible
results of `JSON.parse` plus `undefined` (the result of reading an absent
property). -/
inductive JsValue where
  | undefined : JsValue
  | null : JsValue
  | bool : Bool → JsValue
  | num : Int → JsValue
  | str : String → JsValue
  | arr : List JsValue → JsValue
  | obj : List (String × JsValue) → JsValue

/-- JS truthiness of a value (`!v` in the source is `!truthy v`). -/
def truthy : JsValue → Bool
  | .undefined => false
  | .null => false
  | .bool b => b
  | .num n => decide (n ≠ 0)
  | .str s => decide (s ≠ "")
  | .arr _ => true
  | .obj _ => true

/-- JS truthiness of an optional string (header values, access tokens):
`undefined` and `""` are falsy. -/
def truthyStr : Option String → Bool
  | none => false
  | some s => decide (s ≠ "")

/-- Property read on a JS object: later duplicate keys override earlier ones
(as in `JSON.parse`), absent keys give `undefined`; reading a property of a
non-object primitive also gives `undefined`.  Only used after the `null` /
`undefined` destructuring guard. -/
def getFieldD : JsValue → String → JsValue
  | .obj fields, k => ((fields.reverse).lookup k).getD .undefined
  | _, _ => .undefined

/-- Nullish JS values: destructuring (`const \x7b username \x7d = v`) throws a
`TypeError` exactly on these. -/
def isNullish : JsValue → Bool
  | .null => true
  | .undefined => true
  | _ => false

/-- Uncaught JavaScript exceptions that can escape a handler. -/
inductive JsError where
  | parseError : JsError
  | typeError : JsError
deriving DecidableEq

/-! ### A model of `JSON.parse` -/

/-- JSON whitespace. -/
def isJsonWs (c : Char) : Bool :=
  c = ' ' || c = '\t' || c = '\n' || c = '\r'

/-- Single-character JSON string escapes (`\uXXXX` is outside the model). -/
def escChar (c : Char) : Char :=
  if c = 'n' then '\n'
  else if c = 't' then '\t'
  else if c = 'r' then '\r'
  else if c = 'b' then '\x08'
  else if c = 'f' then '\x0c'
  else c

/-- Parse the body of a JSON string literal after the opening quote;
returns the decoded characters and the remaining input. -/
def parseStrBody : List Char → Option (List Char × List Char)
  | [] => none
  | '"' :: rest => some ([], rest)
  | '\\' :: c :: rest =>
    (parseStrBody rest).map (fun p => (escChar c :: p.1, p.2))
  | c :: rest =>
    (parseStrBody rest).map (fun p => (c :: p.1, p.2))

/-- Accumulate decimal digits into a natural number. -/
def digitsToNat (ds : List Char) : Nat :=
  ds.foldl (fun acc d => acc * 10 + (d.toNat - '0'.toNat)) 0

mutual

/-- Parse one JSON value (fuel-based recursion; the fuel bounds the nesting
depth, which is bounded by the input length). -/
def parseValue : Nat → List Char → Option (JsValue × List Char)
  | 0, _ => none
  | fuel + 1, cs =>
    match cs.dropWhile isJsonWs with
    | 'n' :: 'u' :: 'l' :: 'l' :: rest => some (.null, rest)
    | 't' :: 'r' :: 'u' :: 'e' :: rest => some (.bool true, rest)
    | 'f' :: 'a' :: 'l' :: 's' :: 'e' :: rest => some (.bool false, rest)
    | '"' :: rest =>
      (parseStrBody rest).map (fun p => (.str (String.mk p.1), p.2))
    | '[' :: rest =>
      match (rest.dropWhile isJsonWs) with
      | ']' :: rest₂ => some (.arr [], rest₂)
      | _ => (parseItems fuel rest).map (fun p => (.arr p.1, p.2))
    | '\x7b' :: rest =>
      match (rest.dropWhile isJsonWs) with
      | '\x7d' :: rest₂ => some (.obj [], rest₂)
      | _ => (parseMembers fuel rest).map (fun p => (.obj p.1, p.2))
    | '-' :: c :: rest =>
      if c.isDigit then
        let ds := (c :: rest).takeWhile Char.isDigit
        let rest₂ := (c :: rest).dropWhile Char.isDigit
        match rest₂ with
        | '.' :: _ => none
        | 'e' :: _ => none
        | 'E' :: _ => none
        | _ => some (.num (-(digitsToNat ds : Int)), rest₂)
      else none
    | c :: rest =>
      if c.isDigit then
        let ds := (c :: rest).takeWhile Char.isDigit
        let rest₂ := (c :: rest).dropWhile Char.isDigit
        match rest₂ with
        | '.' :: _ => none
        | 'e' :: _ => none
        | 'E' :: _ => none
        | _ => some (.num (digitsToNat ds : Int), rest₂)
      else none
    | [] => none

/-- Parse the comma-separated items of a non-empty JSON array, including the
closing bracket. -/
def parseItems : Nat → List Char → Option (List JsValue × List Char)
  | 0, _ => none
  | fuel + 1, cs =>
    match parseValue fuel cs with
    | none => none
    | some (v, rest) =>
      match rest.dropWhile isJsonWs with
      | ']' :: rest₂ => some ([v], rest₂)
      | ',' :: rest₂ =>
        (parseItems fuel rest₂).map (fun p => (v :: p.1, p.2))
      | _ => none

/-- Parse the members of a non-empty JSON object, including the closing
brace. -/
def parseMembers : Nat → List Char → Option (List (String × JsValue) × List Char)
  | 0, _ => none
  | fuel + 1, cs =>
    match cs.dropWhile isJsonWs with
    | '"' :: rest =>
      match parseStrBody rest with
      | none => none
      | some (key, rest₂) =>
        match rest₂.dropWhile isJsonWs with
        | ':' :: rest₃ =>
          match parseValue fuel rest₃ with
          | none => none
          | some (v, rest₄) =>
            match rest₄.dropWhile isJsonWs with
            | '\x7d' :: rest₅ => some ([(String.mk key, v)], rest₅)
            | ',' :: rest₅ =>
              (parseMembers fuel rest₅).map
                (fun p => ((String.mk key, v) :: p.1, p.2))
            | _ => none
        | _ => none
    | _ => none

end

/-- Model of `JSON.parse`: parse a whole string as one JSON value;
anything else throws a `SyntaxError`, modelled as `JsError.parseError`. -/
def parseJson (s : String) : Except JsError JsValue :=
  match parseValue (s.data.length + 2) s.data with
  | some (v, rest) =>
    if rest.dropWhile isJsonWs = [] then .ok v else .error .parseError
  | none => .error .parseError

/-! ### JS string coercion

`username + cognitoClientId` in the source coerces `username` with the JS
`+` operator; `crypto.update` then hashes the resulting string. -/

mutual

/-- JS `String(v)` coercion as used by string concatenation. -/
def jsToString : JsValue → String
  | .undefined => "undefined"
  | .null => "null"
  | .bool b => if b then "true" else "false"
  | .num n => toString n
  | .str s => s
  | .arr es => jsArrToString es
  | .obj _ => "[object Object]"
termination_by v => (sizeOf v, 0)

/-- JS `Array.prototype.toString`: elements joined by commas. -/
def jsArrToString : List JsValue → String
  | [] => ""
  | [v] => jsElemToString v
  | v :: vs => jsElemToString v ++ "," ++ jsArrToString vs
termination_by es => (sizeOf es, 1)

/-- Inside an array join, `null` and `undefined` print as empty. -/
def jsElemToString : JsValue → String
  | .undefined => ""
  | .null => ""
  | v => jsToString v
termination_by v => (sizeOf v, 1)

end

/-! ### SHA-256, HMAC and base64

Executable model of `crypto.createHmac('sha256', key).update(msg).digest('base64')`:
SHA-256 per FIPS 180-4, HMAC per RFC 2104 (block size 64), base64 with the
standard alphabet and padding, all over lists of byte values. -/

/-- Big-endian byte serialisation of `n` on `len` bytes. -/
def toBytesBE : Nat → Nat → List Nat
  | 0, _ => []
  | len + 1, n => toBytesBE len (n / 256) ++ [n % 256]

/-- Truncated 32-bit addition. -/
def add32 (a b : Nat) : Nat := (a + b) % 4294967296

/-- Right rotation of a 32-bit word. -/
def rotr32 (k x : Nat) : Nat := x / 2 ^ k + x % 2 ^ k * 2 ^ (32 - k)

/-- 32-bit complement. -/
def not32 (x : Nat) : Nat := Nat.xor x 4294967295

/-- SHA-256 `Ch` function. -/
def sha256Ch (x y z : Nat) : Nat :=
  Nat.xor (Nat.land x y) (Nat.land (not32 x) z)

/-- SHA-256 `Maj` function. -/
def sha256Maj (x y z : Nat) : Nat :=
  Nat.xor (Nat.xor (Nat.land x y) (Nat.land x z)) (Nat.land y z)

/-- SHA-256 `Σ₀`. -/
def sha256S0 (x : Nat) : Nat :=
  Nat.xor (Nat.xor (rotr32 2 x) (rotr32 13 x)) (rotr32 22 x)

/-- SHA-256 `Σ₁`. -/
def sha256S1 (x : Nat) : Nat :=
  Nat.xor (Nat.xor (rotr32 6 x) (rotr32 11 x)) (rotr32 25 x)

/-- SHA-256 `σ₀`. -/
def sha256s0 (x : Nat) : Nat :=
  Nat.xor (Nat.xor (rotr32 7 x) (rotr32 18 x)) (x / 2 ^ 3)

/-- SHA-256 `σ₁`. -/
def sha256s1 (x : Nat) : Nat :=
  Nat.xor (Nat.xor (rotr32 17 x) (rotr32 19 x)) (x / 2 ^ 10)

/-- The 64 SHA-256 round constants. -/
def sha256K : List Nat :=
  [1116352408, 1899447441, 3049323471, 3921009573,
   961987163, 1508970993, 2453635748, 2870763221,
   3624381080, 310598401, 607225278, 1426881987,
   1925078388, 2162078206, 2614888103, 3248222580,
   3835390401, 4022224774, 264347078, 604807628,
   770255983, 1249150122, 1555081692, 1996064986,
   2554220882, 2821834349, 2952996808, 3210313671,
   3336571891, 3584528711, 113926993, 338241895,
   666307205, 773529912, 1294757372, 1396182291,
   1695183700, 1986661051, 2177026350, 2456956037,
   2730485921, 2820302411, 3259730800, 3345764771,
   3516065817, 3600352804, 4094571909, 275423344,
   430227734, 506948616, 659060556, 883997877,
   958139571, 1322822218, 1537002063, 1747873779,
   1955562222, 2024104815, 2227730452, 2361852424,
   2428436474, 2756734187, 3204031479, 3329325298]

/-- The 8 words of a SHA-256 chaining state. -/
structure Hash8 where
  w0 : Nat
  w1 : Nat
  w2 : Nat
  w3 : Nat
  w4 : Nat
  w5 : Nat
  w6 : Nat
  w7 : Nat

/-- SHA-256 initial hash value. -/
def sha256H0 : Hash8 :=
  ⟨1779033703, 3144134277, 1013904242, 2773480762,
   1359893119, 2600822924, 528734635, 1541459225⟩

/-- Big-endian word from (up to) four bytes. -/
def bytesToWord (bs : List Nat) : Nat :=
  bs.foldl (fun acc b => acc * 256 + b) 0

/-- The 64-entry message schedule of one 64-byte block. -/
def messageSchedule (block : List Nat) : List Nat :=
  let w16 := (List.range 16).map (fun i => bytesToWord ((block.drop (4 * i)).take 4))
  (List.range 48).foldl
    (fun ws _ =>
      let t := ws.length
      ws ++ [add32
              (add32 (sha256s1 (ws.getD (t - 2) 0)) (ws.getD (t - 7) 0))
              (add32 (sha256s0 (ws.getD (t - 15) 0)) (ws.getD (t - 16) 0))])
    w16

/-- One SHA-256 round. -/
def sha256Round (s : Nat × Nat × Nat × Nat × Nat × Nat × Nat × Nat)
    (k w : Nat) : Nat × Nat × Nat × Nat × Nat × Nat × Nat × Nat :=
  match s with
  | (a, b, c, d, e, f, g, h) =>
    let t1 := add32 (add32 (add32 (add32 h (sha256S1 e)) (sha256Ch e f g)) k) w
    let t2 := add32 (sha256S0 a) (sha256Maj a b c)
    (add32 t1 t2, a, b, c, add32 d t1, e, f, g)

/-- Compression of one 64-byte block into the chaining state. -/
def compressBlock (st : Hash8) (block : List Nat) : Hash8 :=
  let ws := messageSchedule block
  match (sha256K.zip ws).foldl (fun s kw => sha256Round s kw.1 kw.2)
      (st.w0, st.w1, st.w2, st.w3, st.w4, st.w5, st.w6, st.w7) with
  | (a, b, c, d, e, f, g, h) =>
    ⟨add32 st.w0 a, add32 st.w1 b, add32 st.w2 c, add32 st.w3 d,
     add32 st.w4 e, add32 st.w5 f, add32 st.w6 g, add32 st.w7 h⟩

/-- SHA-256 message padding: `0x80`, zeros to 56 mod 64, then the bit length
on eight bytes. -/
def padMessage (msg : List Nat) : List Nat :=
  let L := msg.length
  msg ++ [0x80] ++ List.replicate ((64 + 55 - L % 64) % 64) 0 ++ toBytesBE 8 (8 * L)

/-- Split a padded message into its 64-byte blocks. -/
def sha256Blocks (padded : List Nat) : List (List Nat) :=
  (List.range (padded.length / 64)).map (fun i => (padded.drop (64 * i)).take 64)

/-- Serialise a chaining state into the 32 digest bytes. -/
def hashBytes (h : Hash8) : List Nat :=
  toBytesBE 4 h.w0 ++ toBytesBE 4 h.w1 ++ toBytesBE 4 h.w2 ++ toBytesBE 4 h.w3 ++
  toBytesBE 4 h.w4 ++ toBytesBE 4 h.w5 ++ toBytesBE 4 h.w6 ++ toBytesBE 4 h.w7

/-- SHA-256 of a byte list. -/
def sha256 (msg : List Nat) : List Nat :=
  hashBytes ((sha256Blocks (padMessage msg)).foldl compressBlock sha256H0)

/-- HMAC-SHA-256 (RFC 2104, block size 64 bytes). -/
def hmacSha256 (key msg : List Nat) : List Nat :=
  let key₂ := if 64 < key.length then sha256 key else key
  let keyPad := key₂ ++ List.replicate (64 - key₂.length) 0
  let ipadKey := keyPad.map (fun b => Nat.xor b 0x36)
  let opadKey := keyPad.map (fun b => Nat.xor b 0x5c)
  sha256 (opadKey ++ sha256 (ipadKey ++ msg))

/-- UTF-8 encoding of one scalar value. -/
def utf8EncodeChar (c : Char) : List Nat :=
  let n := c.toNat
  if n < 0x80 then [n]
  else if n < 0x800 then [0xc0 + n / 0x40, 0x80 + n % 0x40]
  else if n < 0x10000 then
    [0xe0 + n / 0x1000, 0x80 + n / 0x40 % 0x40, 0x80 + n % 0x40]
  else
    [0xf0 + n / 0x40000, 0x80 + n / 0x1000 % 0x40,
     0x80 + n / 0x40 % 0x40, 0x80 + n % 0x40]

/-- UTF-8 bytes of a string (what `crypto.update` hashes). -/
def utf8Encode (s : String) : List Nat :=
  (s.data.map utf8EncodeChar).flatten

/-- The standard base64 alphabet. -/
def base64Alphabet : List Char :=
  "ABCDEFGHIJKLMNOPQRSTUVWXYZabcdefghijklmnopqrstuvwxyz0123456789+/".data

/-- Character for one 6-bit group. -/
def b64Char (n : Nat) : Char := base64Alphabet.getD n 'A'

/-- Standard base64, three input bytes at a time, `=`-padded. -/
def base64Chars : List Nat → List Char
  | [] => []
  | [b1] => [b64Char (b1 / 4), b64Char (b1 % 4 * 16), '=', '=']
  | [b1, b2] =>
    [b64Char (b1 / 4), b64Char (b1 % 4 * 16 + b2 / 16), b64Char (b2 % 16 * 4), '=']
  | b1 :: b2 :: b3 :: rest =>
    b64Char (b1 / 4) :: b64Char (b1 % 4 * 16 + b2 / 16) ::
    b64Char (b2 % 16 * 4 + b3 / 64) :: b64Char (b3 % 64) :: base64Chars rest

/-- Base64 encoding of a byte list, as a string. -/
def base64Encode (bytes : List Nat) : String := String.mk (base64Chars bytes)

/-- The secret-hash derivation of `src/index.ts`:
`crypto.createHmac('sha256', cognitoClientSecret).update(username + cognitoClientId).digest('base64')`. -/
def calculateSecretHash (clientSecret clientId username : String) : String :=
  base64Encode (hmacSha256 (utf8Encode clientSecret) (utf8Encode (username ++ clientId)))

/-! ### JS `String.replace` with a string pattern (first occurrence only) -/

/-- Split a character list around the first occurrence of `pat`:
`some (before, after)` with `before ++ pat ++ after = s`, or `none` when
`pat` does not occur. -/
def splitFirst (pat : List Char) : List Char → Option (List Char × List Char)
  | [] => if pat.isEmpty then some ([], []) else none
  | c :: cs =>
    if pat.isPrefixOf (c :: cs) then some ([], (c :: cs).drop pat.length)
    else (splitFirst pat cs).map (fun p => (c :: p.1, p.2))

/-- JS `s.replace(pat, repl)` for a string `pat`: replaces only the first
occurrence, and returns `s` unchanged when `pat` does not occur. -/
def replaceFirst (s pat repl : String) : String :=
  match splitFirst pat.data s.data with
  | none => s
  | some p => String.mk (p.1 ++ repl.data ++ p.2)

/-! ### `JSON.stringify` of the response payloads -/

/-- `JSON.stringify` escaping of one string character. -/
def jsEscapeChar (c : Char) : String :=
  if c = '"' then "\\\""
  else if c = '\\' then "\\\\"
  else if c = '\n' then "\\n"
  else if c = '\t' then "\\t"
  else if c = '\r' then "\\r"
  else String.singleton c

/-- `JSON.stringify` of a string value. -/
def jsonQuote (s : String) : String :=
  "\"" ++ String.join (s.data.map jsEscapeChar) ++ "\""

/-- `JSON.stringify({ message })` for a defined string `message`. -/
def jsonMessageBody (m : String) : String :=
  "\x7b\"message\":" ++ jsonQuote m ++ "\x7d"

/-- `JSON.stringify({ message })` where `message` may be `undefined`
(an `undefined` property is dropped, yielding `"\x7b\x7d"`). -/
def jsonMessageBodyOpt : Option String → String
  | none => "\x7b\x7d"
  | some m => jsonMessageBody m

/-- `JSON.stringify({ accessToken })` for a defined string token. -/
def jsonAccessTokenBody (t : String) : String :=
  "\x7b\"accessToken\":" ++ jsonQuote t ++ "\x7d"

/-! ### Events, responses, provider outcomes -/

/-- Process-wide configuration read from the environment at startup. -/
structure Config where
  clientId : String
  clientSecret : String

/-- The parts of an `APIGatewayProxyEvent` the handlers read. -/
structure Event where
  headers : Option (List (String × String))
  body : Option String

/-- An `APIGatewayProxyResult`: status code plus `JSON.stringify`-ed body. -/
structure Response where
  statusCode : Nat
  body : String
deriving DecidableEq

/-- Outcome of one Cognito call: resolved payload, or rejection carrying an
optional error message (`(error as Error).message` may be `undefined`). -/
inductive Outcome (α : Type) where
  | success : α → Outcome α
  | failure : Option String → Outcome α

/-- The `AuthenticationResult` member of an `InitiateAuth` response. -/
structure AuthenticationResultType where
  AccessToken : Option String

/-- An `InitiateAuth` success payload. -/
structure InitiateAuthResponse where
  AuthenticationResult : Option AuthenticationResultType

/-- The request record `authenticate` passes to `cognito.initiateAuth`. -/
structure InitiateAuthParams where
  AuthFlow : String
  ClientId : String
  USERNAME : JsValue
  PASSWORD : JsValue
  SECRET_HASH : String

/-- The request record `register` passes to `cognito.signUp`
(`UserAttributesEmail` stands for `UserAttributes: [⟨'email', email⟩]`). -/
structure SignUpParams where
  ClientId : String
  Password : JsValue
  Username : JsValue
  UserAttributesEmail : JsValue
  SecretHash : String

/-- The request record `confirm` passes to `cognito.confirmSignUp`. -/
structure ConfirmSignUpParams where
  ClientId : String
  ConfirmationCode : JsValue
  Username : JsValue
  SecretHash : String

/-- One recorded call to the identity provider. -/
inductive ProviderCall where
  | getUser : String → ProviderCall
  | initiateAuth : InitiateAuthParams → ProviderCall
  | signUp : SignUpParams → ProviderCall
  | confirmSignUp : ConfirmSignUpParams → ProviderCall

/-- Result of running a handler: the response it returns (or the uncaught
exception it throws), together with the provider calls it made. -/
structure HandlerRun where
  result : Except JsError Response
  calls : List ProviderCall

/-- Whether a handler run ended in a returned response (rather than an
uncaught exception). -/
def resultOk : Except JsError Response → Bool
  | .ok _ => true
  | .error _ => false

/-- `event.headers?.Authorization`. -/
def getAuthHeader (ev : Event) : Option String :=
  ev.headers.bind (fun hs => hs.lookup "Authorization")

/-! ### The four handlers of `src/index.ts` -/

/-- The `authorize` handler. -/
def authorize (getUser : String → Outcome Unit) (ev : Event) : HandlerRun :=
  match getAuthHeader ev with
  | none => ⟨.ok ⟨401, jsonMessageBody "Missing Authorization header"⟩, []⟩
  | some a =>
    if a = "" then ⟨.ok ⟨401, jsonMessageBody "Missing Authorization header"⟩, []⟩
    else
      let accessToken := replaceFirst a "Bearer " ""
      match getUser accessToken with
      | .success _ => ⟨.ok ⟨200, jsonMessageBody "Authorized"⟩, [.getUser accessToken]⟩
      | .failure m => ⟨.ok ⟨401, jsonMessageBodyOpt m⟩, [.getUser accessToken]⟩

/-- The `authenticate` handler.  `JSON.parse` sits outside the `try` block,
so a parse failure (and a destructuring of `null`) escapes as an exception. -/
def authenticate (cfg : Config)
    (initiateAuth : InitiateAuthParams → Outcome InitiateAuthResponse)
    (ev : Event) : HandlerRun :=
  match ev.body with
  | none => ⟨.ok ⟨400, jsonMessageBody "Missing body"⟩, []⟩
  | some bodyStr =>
    if bodyStr = "" then ⟨.ok ⟨400, jsonMessageBody "Missing body"⟩, []⟩
    else
      match parseJson bodyStr with
      | .error e => ⟨.error e, []⟩
      | .ok v =>
        if isNullish v then ⟨.error .typeError, []⟩ else
        let username := getFieldD v "username"
        let password := getFieldD v "password"
        if !truthy username || !truthy password then
          ⟨.ok ⟨400, jsonMessageBody "Missing username or password"⟩, []⟩
        else
          let secretHash := calculateSecretHash cfg.clientSecret cfg.clientId (jsToString username)
          let params : InitiateAuthParams :=
            ⟨"USER_PASSWORD_AUTH", cfg.clientId, username, password, secretHash⟩
          match initiateAuth params with
          | .success response =>
            match response.AuthenticationResult.bind (fun r => r.AccessToken) with
            | none =>
              ⟨.ok ⟨400, jsonMessageBody "Invalid username or password"⟩, [.initiateAuth params]⟩
            | some t =>
              if t = "" then
                ⟨.ok ⟨400, jsonMessageBody "Invalid username or password"⟩, [.initiateAuth params]⟩
              else
                ⟨.ok ⟨200, jsonAccessTokenBody t⟩, [.initiateAuth params]⟩
          | .failure m => ⟨.ok ⟨400, jsonMessageBodyOpt m⟩, [.initiateAuth params]⟩

/-- The `register` handler.  Note the deployed source's field message reads
`"Missing email, username or password"` (no comma before `or`). -/
def register (cfg : Config) (signUp : SignUpParams → Outcome Unit)
    (ev : Event) : HandlerRun :=
  match ev.body with
  | none => ⟨.ok ⟨400, jsonMessageBody "Missing body"⟩, []⟩
  | some bodyStr =>
    if bodyStr = "" then ⟨.ok ⟨400, jsonMessageBody "Missing body"⟩, []⟩
    else
      match parseJson bodyStr with
      | .error e => ⟨.error e, []⟩
      | .ok v =>
        if isNullish v then ⟨.error .typeError, []⟩ else
        let email := getFieldD v "email"
        let username := getFieldD v "username"
        let password := getFieldD v "password"
        if !truthy email || !truthy username || !truthy password then
          ⟨.ok ⟨400, jsonMessageBody "Missing email, username or password"⟩, []⟩
        else
          let secretHash := calculateSecretHash cfg.clientSecret cfg.clientId (jsToString username)
          let params : SignUpParams :=
            ⟨cfg.clientId, password, username, email, secretHash⟩
          match signUp params with
          | .success _ => ⟨.ok ⟨200, jsonMessageBody "User created"⟩, [.signUp params]⟩
          | .failure m => ⟨.ok ⟨400, jsonMessageBodyOpt m⟩, [.signUp params]⟩

/-- The `confirm` handler. -/
def confirm (cfg : Config) (confirmSignUp : ConfirmSignUpParams → Outcome Unit)
    (ev : Event) : HandlerRun :=
  match ev.body with
  | none => ⟨.ok ⟨400, jsonMessageBody "Missing body"⟩, []⟩
  | some bodyStr =>
    if bodyStr = "" then ⟨.ok ⟨400, jsonMessageBody "Missing body"⟩, []⟩
    else
      match parseJson bodyStr with
      | .error e => ⟨.error e, []⟩
      | .ok v =>
        if isNullish v then ⟨.error .typeError, []⟩ else
        let username := getFieldD v "username"
        let code := getFieldD v "code"
        if !truthy username || !truthy code then
          ⟨.ok ⟨400, jsonMessageBody "Missing username or code"⟩, []⟩
        else
          let secretHash := calculateSecretHash cfg.clientSecret cfg.clientId (jsToString username)
          let params : ConfirmSignUpParams :=
            ⟨cfg.clientId, code, username, secretHash⟩
          match confirmSignUp params with
          | .success _ => ⟨.ok ⟨200, jsonMessageBody "User confirmed"⟩, [.confirmSignUp params]⟩
          | .failure m => ⟨.ok ⟨400, jsonMessageBodyOpt m⟩, [.confirmSignUp params]⟩

/-! ### Supporting lemmas -/

theorem toBytesBE_length (len n : Nat) : (toBytesBE len n).length = len := by
  induction len generalizing n with
  | zero => rfl
  | succ k ih => simp [toBytesBE, ih]

theorem hashBytes_length (h : Hash8) : (hashBytes h).length = 32 := by
  simp [hashBytes, toBytesBE_length]

theorem sha256_length (msg : List Nat) : (sha256 msg).length = 32 := by
  unfold sha256
  exact hashBytes_length _

theorem hmacSha256_length (key msg : List Nat) :
    (hmacSha256 key msg).length = 32 := by
  unfold hmacSha256
  exact sha256_length _

theorem base64Chars_length (l : List Nat) :
    (base64Chars l).length = 4 * ((l.length + 2) / 3) := by
  induction l using base64Chars.induct with
  | case1 => rfl
  | case2 b1 => simp [base64Chars]
  | case3 b1 b2 => simp [base64Chars]
  | case4 b1 b2 b3 rest ih =>
    show (base64Chars (b1 :: b2 :: b3 :: rest)).length = _
    simp only [base64Chars, List.length_cons, ih]
    have h3 : rest.length + 1 + 1 + 1 + 2 = rest.length + 2 + 3 := by omega
    rw [h3, Nat.add_div_right _ (by norm_num)]
    omega

theorem base64Encode_length (l : List Nat) :
    (base64Encode l).length = 4 * ((l.length + 2) / 3) := by
  have h : (base64Encode l).length = (base64Chars l).length := rfl
  rw [h, base64Chars_length]

theorem splitFirst_spec (pat : List Char) :
    ∀ s b r, splitFirst pat s = some (b, r) →
      b ++ pat ++ r = s ∧ ∀ i, i < b.length → ¬ pat <+: s.drop i := by
  intro s
  induction s with
  | nil =>
    intro b r h
    unfold splitFirst at h
    by_cases hp : pat.isEmpty
    · rw [if_pos hp] at h
      injection h with h'
      injection h' with hb hr
      subst hb; subst hr
      constructor
      · simp [List.isEmpty_iff.mp hp]
      · intro i hi; simp at hi
    · rw [if_neg hp] at h
      exact absurd h (by simp)
  | cons c cs ih =>
    intro b r h
    unfold splitFirst at h
    by_cases hp : pat.isPrefixOf (c :: cs)
    · rw [if_pos hp] at h
      injection h with h'
      injection h' with hb hr
      subst hb; subst hr
      have hpre : pat <+: (c :: cs) := List.isPrefixOf_iff_prefix.mp hp
      constructor
      · simpa using (List.prefix_iff_eq_append.mp hpre)
      · intro i hi; simp at hi
    · rw [if_neg hp] at h
      cases hsp : splitFirst pat cs with
      | none => rw [hsp] at h; exact absurd h (by simp)
      | some p =>
        rw [hsp] at h
        injection h with h'
        obtain ⟨b', r'⟩ := p
        injection h' with hb hr
        subst hb; subst hr
        obtain ⟨heq, hmin⟩ := ih b' r' hsp
        constructor
        · simp [← heq]
        · intro i hi
          match i with
          | 0 =>
            simp only [List.drop_zero]
            intro hpre
            exact hp (List.isPrefixOf_iff_prefix.mpr hpre)
          | j + 1 =>
            simp only [List.drop_succ_cons]
            exact hmin j (by simpa using hi)

theorem replaceFirst_of_not_infix (s pat repl : String)
    (h : ¬ pat.data <:+: s.data) : replaceFirst s pat repl = s := by
  unfold replaceFirst
  match hs : splitFirst pat.data s.data with
  | none => rfl
  | some p =>
    exfalso
    have hspec := (splitFirst_spec pat.data s.data p.1 p.2 hs).1
    exact h ⟨p.1, p.2, by simpa using hspec⟩

theorem parseValue_ne_undefined (fuel : Nat) (cs : List Char) (v : JsValue)
    (rest : List Char) (h : parseValue fuel cs = some (v, rest)) :
    v ≠ JsValue.undefined := by
  intro hv
  subst hv
  match fuel with
  | 0 => simp [parseValue] at h
  | fuel + 1 =>
    unfold parseValue at h
    split at h
    case h_1 => simp at h
    case h_2 => simp at h
    case h_3 => simp at h
    case h_4 r heq =>
      cases hsb : parseStrBody r <;> rw [hsb] at h <;> simp at h
    case h_5 r heq =>
      split at h
      · simp at h
      · cases hit : parseItems fuel r <;> rw [hit] at h <;> simp at h
    case h_6 r heq =>
      split at h
      · simp at h
      · cases hm : parseMembers fuel r <;> rw [hm] at h <;> simp at h
    case h_7 c r heq =>
      split at h
      · dsimp only at h
        split at h <;> simp at h
      · simp at h
    case h_8 x c r hne1 hne2 hne3 hne4 hne5 hne6 hne7 =>
      split at h
      · dsimp only at h
        split at h <;> simp at h
      · simp at h
    case h_9 => simp at h

theorem parseJson_ne_undefined (s : String) (v : JsValue)
    (h : parseJson s = Except.ok v) : v ≠ JsValue.undefined := by
  unfold parseJson at h
  split at h
  case h_1 v' r heq =>
    split at h
    · injection h with h'
      subst h'
      exact parseValue_ne_undefined _ _ _ _ heq
    · simp at h
  case h_2 => simp at h

/-! ### Claim theorems -/

theorem isNullish_eq_false (v : JsValue) (h1 : v ≠ JsValue.null)
    (h2 : v ≠ JsValue.undefined) : isNullish v = false := by
  cases v <;> simp [isNullish] at *

/-- C5: an authorize request whose headers contain no Authorization entry is
answered with exactly 401 and body `\x7b"message":"Missing Authorization header"\x7d`,
and no provider call is made. -/
theorem authorize_missing_header (getUser : String → Outcome Unit) (ev : Event)
    (h : getAuthHeader ev = none) :
    authorize getUser ev =
      ⟨.ok ⟨401, jsonMessageBody "Missing Authorization header"⟩, []⟩ := by
  unfold authorize
  rw [h]

theorem authorize_missing_header_witness :
    getAuthHeader ⟨some [("Content-Type", "application/json")], none⟩ = none ∧
    authorize (fun _ => Outcome.success ()) ⟨some [("Content-Type", "application/json")], none⟩ =
      ⟨.ok ⟨401, jsonMessageBody "Missing Authorization header"⟩, []⟩ :=
  ⟨rfl, authorize_missing_header _ _ rfl⟩

/-- C9: with an Authorization header present, the token sent to `getUser` is
the header value with the first occurrence of `"Bearer "` removed; when that
substring does not occur, the header value is forwarded unchanged. -/
theorem authorize_token_stripping (getUser : String → Outcome Unit) (ev : Event)
    (a : String) (h : getAuthHeader ev = some a) (hne : a ≠ "") :
    (authorize getUser ev).calls = [ProviderCall.getUser (replaceFirst a "Bearer " "")] ∧
    (¬ "Bearer ".data <:+: a.data → replaceFirst a "Bearer " "" = a) := by
  constructor
  · unfold authorize
    rw [h]
    dsimp only
    rw [if_neg hne]
    cases getUser (replaceFirst a "Bearer " "") <;> rfl
  · intro hni
    exact replaceFirst_of_not_infix a "Bearer " "" hni

theorem authorize_token_stripping_witness :
    getAuthHeader ⟨some [("Authorization", "sometoken")], none⟩ = some "sometoken" ∧
    ("sometoken" : String) ≠ "" ∧
    ((authorize (fun _ => Outcome.success ()) ⟨some [("Authorization", "sometoken")], none⟩).calls
        = [ProviderCall.getUser (replaceFirst "sometoken" "Bearer " "")] ∧
      (¬ "Bearer ".data <:+: "sometoken".data →
        replaceFirst "sometoken" "Bearer " "" = "sometoken")) :=
  ⟨rfl, by decide, authorize_token_stripping _ _ "sometoken" rfl (by decide)⟩

/-- C4 (amended): with an Authorization header present, provider acceptance
yields 200 "Authorized"; provider rejection yields 401 whose body carries the
provider's failure reason when one is supplied, and the empty JSON object
(no message at all, rather than a "Unauthorized" fallback) when none is. -/
theorem authorize_outcome_mapping (getUser : String → Outcome Unit) (ev : Event)
    (a : String) (h : getAuthHeader ev = some a) (hne : a ≠ "") :
    (∀ u, getUser (replaceFirst a "Bearer " "") = .success u →
      (authorize getUser ev).result = .ok ⟨200, jsonMessageBody "Authorized"⟩) ∧
    (∀ m, getUser (replaceFirst a "Bearer " "") = .failure m →
      (authorize getUser ev).result = .ok ⟨401, jsonMessageBodyOpt m⟩) := by
  constructor
  · intro u hu
    unfold authorize
    rw [h]
    dsimp only
    rw [if_neg hne]
    rw [hu]
  · intro m hm
    unfold authorize
    rw [h]
    dsimp only
    rw [if_neg hne]
    rw [hm]

theorem authorize_outcome_mapping_witness :
    getAuthHeader ⟨some [("Authorization", "Bearer t")], none⟩ = some "Bearer t" ∧
    ("Bearer t" : String) ≠ "" ∧
    (∀ m, (fun (_ : String) => Outcome.failure (α := Unit) (some "Access Token has expired")) (replaceFirst "Bearer t" "Bearer " "") = .failure m →
      (authorize (fun _ => Outcome.failure (some "Access Token has expired")) ⟨some [("Authorization", "Bearer t")], none⟩).result
        = .ok ⟨401, jsonMessageBodyOpt m⟩) :=
  ⟨rfl, by decide,
    (authorize_outcome_mapping (fun _ => Outcome.failure (some "Access Token has expired"))
      ⟨some [("Authorization", "Bearer t")], none⟩ "Bearer t" rfl (by decide)).2⟩

/-- C4 counterexample: when the provider rejects without a reason, the body is
the empty JSON object, not `\x7b"message":"Unauthorized"\x7d`. -/
theorem authorize_no_reason_counterexample :
    (authorize (fun _ => Outcome.failure none)
        ⟨some [("Authorization", "Bearer t")], none⟩).result
      = Except.ok ⟨401, "\x7b\x7d"⟩ ∧
    ("\x7b\x7d" : String) ≠ jsonMessageBody "Unauthorized" :=
  ⟨rfl, by decide⟩

/-- C3: the secret-hash derivation is HMAC-SHA-256 over `username ++ clientId`
keyed by `clientSecret`, base64-encoded with padding (hence always 44
characters — defined for every input, including an empty secret), and is
deterministic in its three inputs. -/
theorem calculateSecretHash_spec (username clientId clientSecret : String) :
    calculateSecretHash clientSecret clientId username =
      base64Encode (hmacSha256 (utf8Encode clientSecret) (utf8Encode (username ++ clientId))) ∧
    (calculateSecretHash clientSecret clientId username).length = 44 ∧
    (∀ u c s, username = u → clientId = c → clientSecret = s →
      calculateSecretHash clientSecret clientId username = calculateSecretHash s c u) := by
  refine ⟨rfl, ?_, ?_⟩
  · unfold calculateSecretHash
    rw [base64Encode_length, hmacSha256_length]
  · intro u c s hu hc hs
    subst hu; subst hc; subst hs
    rfl

theorem calculateSecretHash_spec_witness :
    calculateSecretHash "" "client" "user" = calculateSecretHash "" "client" "user" ∧
    (calculateSecretHash "" "client" "user").length = 44 :=
  ⟨(calculateSecretHash_spec "user" "client" "").2.2 "user" "client" "" rfl rfl rfl,
   (calculateSecretHash_spec "user" "client" "").2.1⟩


/-- C2 (amended): for a valid authenticate request, when the provider call
succeeds: an absent or empty access token in the payload yields
400 "Invalid username or password"; a non-empty token yields 200 with the
token under the `accessToken` key. -/
theorem authenticate_success_mapping (cfg : Config)
    (ia : InitiateAuthParams → Outcome InitiateAuthResponse) (ev : Event)
    (bodyStr : String) (v : JsValue)
    (hb : ev.body = some bodyStr)
    (hp : parseJson bodyStr = .ok v) (hnn : v ≠ .null)
    (hu : truthy (getFieldD v "username") = true)
    (hpw : truthy (getFieldD v "password") = true)
    (resp : InitiateAuthResponse)
    (hia : ia ⟨"USER_PASSWORD_AUTH", cfg.clientId, getFieldD v "username",
        getFieldD v "password",
        calculateSecretHash cfg.clientSecret cfg.clientId
          (jsToString (getFieldD v "username"))⟩ = .success resp) :
    (resp.AuthenticationResult.bind (fun r => r.AccessToken) = none ∨
     resp.AuthenticationResult.bind (fun r => r.AccessToken) = some "" →
      (authenticate cfg ia ev).result =
        .ok ⟨400, jsonMessageBody "Invalid username or password"⟩) ∧
    (∀ t, resp.AuthenticationResult.bind (fun r => r.AccessToken) = some t →
      t ≠ "" →
      (authenticate cfg ia ev).result = .ok ⟨200, jsonAccessTokenBody t⟩) := by
  have hnu : v ≠ JsValue.undefined := parseJson_ne_undefined _ _ hp
  have hnul : isNullish v = false := isNullish_eq_false v hnn hnu
  have hne : bodyStr ≠ "" := by
    intro he
    rw [he] at hp
    rw [show parseJson "" = Except.error JsError.parseError from rfl] at hp
    exact Except.noConfusion hp
  constructor
  · intro htok
    unfold authenticate
    rw [hb]
    try dsimp only
    rw [if_neg hne, hp]
    try dsimp only
    rw [if_neg (show ¬ (isNullish v = true) by simp [hnul])]
    try dsimp only
    rw [if_neg (show ¬ ((!truthy (getFieldD v "username") ||
          !truthy (getFieldD v "password")) = true) by simp [hu, hpw])]
    try dsimp only
    rw [hia]
    try dsimp only
    rcases htok with htok | htok
    · rw [htok]
    · rw [htok]; rfl
  · intro t htok hte
    unfold authenticate
    rw [hb]
    try dsimp only
    rw [if_neg hne, hp]
    try dsimp only
    rw [if_neg (show ¬ (isNullish v = true) by simp [hnul])]
    try dsimp only
    rw [if_neg (show ¬ ((!truthy (getFieldD v "username") ||
          !truthy (getFieldD v "password")) = true) by simp [hu, hpw])]
    try dsimp only
    rw [hia]
    try dsimp only
    rw [htok]
    try dsimp only
    rw [if_neg hte]

theorem authenticate_success_mapping_witness :
    parseJson "\x7b\"username\":\"u\",\"password\":\"p\"\x7d" =
      Except.ok (JsValue.obj [("username", JsValue.str "u"), ("password", JsValue.str "p")]) ∧
    (authenticate ⟨"cid", "secret"⟩ (fun _ => Outcome.success ⟨some ⟨some "tok"⟩⟩)
        ⟨none, some "\x7b\"username\":\"u\",\"password\":\"p\"\x7d"⟩).result
      = Except.ok ⟨200, jsonAccessTokenBody "tok"⟩ :=
  ⟨rfl,
   (authenticate_success_mapping ⟨"cid", "secret"⟩
      (fun _ => Outcome.success ⟨some ⟨some "tok"⟩⟩)
      ⟨none, some "\x7b\"username\":\"u\",\"password\":\"p\"\x7d"⟩
      "\x7b\"username\":\"u\",\"password\":\"p\"\x7d"
      (JsValue.obj [("username", JsValue.str "u"), ("password", JsValue.str "p")])
      rfl rfl (by simp) rfl rfl ⟨some ⟨some "tok"⟩⟩ rfl).2 "tok" rfl (by decide)⟩

/-- C2 counterexample: an access token that is present but empty in the
success payload yields 400, not a 200 carrying it. -/
theorem authenticate_empty_token_counterexample :
    (authenticate ⟨"cid", "secret"⟩ (fun _ => Outcome.success ⟨some ⟨some ""⟩⟩)
        ⟨none, some "\x7b\"username\":\"u\",\"password\":\"p\"\x7d"⟩).result
      = Except.ok ⟨400, jsonMessageBody "Invalid username or password"⟩ ∧
    (⟨400, jsonMessageBody "Invalid username or password"⟩ : Response) ≠
      ⟨200, jsonAccessTokenBody ""⟩ :=
  ⟨rfl, by decide⟩

/-- C7 (amended): register with a parsed body missing (or falsy) email,
username or password answers 400 with exactly
`\x7b"message":"Missing email, username or password"\x7d` (no comma before "or" in
the deployed source) and makes no provider call; with all three truthy,
provider acceptance yields 200 "User created" and provider failure yields 400
with the provider reason when supplied (empty JSON object body when not). -/
theorem register_mapping (cfg : Config) (su : SignUpParams → Outcome Unit)
    (ev : Event) (bodyStr : String) (v : JsValue)
    (hb : ev.body = some bodyStr)
    (hp : parseJson bodyStr = .ok v) (hnn : v ≠ .null) :
    ((!truthy (getFieldD v "email") || !truthy (getFieldD v "username") ||
        !truthy (getFieldD v "password")) = true →
      register cfg su ev =
        ⟨.ok ⟨400, jsonMessageBody "Missing email, username or password"⟩, []⟩) ∧
    (truthy (getFieldD v "email") = true → truthy (getFieldD v "username") = true →
     truthy (getFieldD v "password") = true →
      (∀ u, su ⟨cfg.clientId, getFieldD v "password", getFieldD v "username",
          getFieldD v "email",
          calculateSecretHash cfg.clientSecret cfg.clientId
            (jsToString (getFieldD v "username"))⟩ = .success u →
        (register cfg su ev).result = .ok ⟨200, jsonMessageBody "User created"⟩) ∧
      (∀ m, su ⟨cfg.clientId, getFieldD v "password", getFieldD v "username",
          getFieldD v "email",
          calculateSecretHash cfg.clientSecret cfg.clientId
            (jsToString (getFieldD v "username"))⟩ = .failure m →
        (register cfg su ev).result = .ok ⟨400, jsonMessageBodyOpt m⟩)) := by
  have hnu : v ≠ JsValue.undefined := parseJson_ne_undefined _ _ hp
  have hnul : isNullish v = false := isNullish_eq_false v hnn hnu
  have hne : bodyStr ≠ "" := by
    intro he
    rw [he] at hp
    rw [show parseJson "" = Except.error JsError.parseError from rfl] at hp
    exact Except.noConfusion hp
  refine ⟨?_, ?_⟩
  · intro hcond
    unfold register
    rw [hb]
    try dsimp only
    rw [if_neg hne, hp]
    try dsimp only
    rw [if_neg (show ¬ (isNullish v = true) by simp [hnul])]
    try dsimp only
    rw [if_pos hcond]
  · intro he hu hpw
    constructor
    · intro u hsu
      unfold register
      rw [hb]
      try dsimp only
      rw [if_neg hne, hp]
      try dsimp only
      rw [if_neg (show ¬ (isNullish v = true) by simp [hnul])]
      try dsimp only
      rw [if_neg (show ¬ ((!truthy (getFieldD v "email") ||
            !truthy (getFieldD v "username") ||
            !truthy (getFieldD v "password")) = true) by simp [he, hu, hpw])]
      try dsimp only
      rw [hsu]
    · intro m hsu
      unfold register
      rw [hb]
      try dsimp only
      rw [if_neg hne, hp]
      try dsimp only
      rw [if_neg (show ¬ (isNullish v = true) by simp [hnul])]
      try dsimp only
      rw [if_neg (show ¬ ((!truthy (getFieldD v "email") ||
            !truthy (getFieldD v "username") ||
            !truthy (getFieldD v "password")) = true) by simp [he, hu, hpw])]
      try dsimp only
      rw [hsu]

theorem register_mapping_witness :
    parseJson "\x7b\"email\":\"e@x.co\",\"username\":\"u\",\"password\":\"p\"\x7d" =
      Except.ok (JsValue.obj [("email", JsValue.str "e@x.co"),
        ("username", JsValue.str "u"), ("password", JsValue.str "p")]) ∧
    (register ⟨"cid", "secret"⟩ (fun _ => Outcome.success ())
        ⟨none, some "\x7b\"email\":\"e@x.co\",\"username\":\"u\",\"password\":\"p\"\x7d"⟩).result
      = Except.ok ⟨200, jsonMessageBody "User created"⟩ :=
  ⟨rfl,
   ((register_mapping ⟨"cid", "secret"⟩ (fun _ => Outcome.success ())
      ⟨none, some "\x7b\"email\":\"e@x.co\",\"username\":\"u\",\"password\":\"p\"\x7d"⟩
      "\x7b\"email\":\"e@x.co\",\"username\":\"u\",\"password\":\"p\"\x7d"
      (JsValue.obj [("email", JsValue.str "e@x.co"),
        ("username", JsValue.str "u"), ("password", JsValue.str "p")])
      rfl rfl (by simp)).2 rfl rfl rfl).1 () rfl⟩

/-- C7 counterexample: the deployed missing-field message has no comma before
"or", unlike the claimed exact body. -/
theorem register_message_counterexample :
    (register ⟨"cid", "secret"⟩ (fun _ => Outcome.success ())
        ⟨none, some "\x7b\x7d"⟩).result
      = Except.ok ⟨400, jsonMessageBody "Missing email, username or password"⟩ ∧
    jsonMessageBody "Missing email, username or password" ≠
      jsonMessageBody "Missing email, username, or password" :=
  ⟨rfl, by decide⟩

/-- C8: every returned response's status code lies in the handler's fixed
two-element set: 200/401 for authorize, 200/400 for authenticate, register
and confirm. -/
theorem handlers_status_codes (cfg : Config) (g : String → Outcome Unit)
    (ia : InitiateAuthParams → Outcome InitiateAuthResponse)
    (su : SignUpParams → Outcome Unit) (cs : ConfirmSignUpParams → Outcome Unit)
    (ev : Event) :
    (∀ r : Response, (authorize g ev).result = .ok r →
      r.statusCode = 200 ∨ r.statusCode = 401) ∧
    (∀ r : Response, (authenticate cfg ia ev).result = .ok r →
      r.statusCode = 200 ∨ r.statusCode = 400) ∧
    (∀ r : Response, (register cfg su ev).result = .ok r →
      r.statusCode = 200 ∨ r.statusCode = 400) ∧
    (∀ r : Response, (confirm cfg cs ev).result = .ok r →
      r.statusCode = 200 ∨ r.statusCode = 400) := by
  refine ⟨?_, ?_, ?_, ?_⟩
  · intro r h
    unfold authorize at h
    repeat' (first | split at h | dsimp only at h)
    all_goals (try (injection h with h; subst h))
    all_goals simp_all
  · intro r h
    unfold authenticate at h
    repeat' (first | split at h | dsimp only at h)
    all_goals (try (injection h with h; subst h))
    all_goals simp_all
  · intro r h
    unfold register at h
    repeat' (first | split at h | dsimp only at h)
    all_goals (try (injection h with h; subst h))
    all_goals simp_all
  · intro r h
    unfold confirm at h
    repeat' (first | split at h | dsimp only at h)
    all_goals (try (injection h with h; subst h))
    all_goals simp_all

/-! ### Shared handler-branch lemmas -/

theorem parseJson_empty : parseJson "" = Except.error JsError.parseError := rfl

theorem bodyStr_ne_empty {bodyStr : String} {v : JsValue}
    (hp : parseJson bodyStr = .ok v) : bodyStr ≠ "" := by
  intro he
  rw [he, parseJson_empty] at hp
  exact Except.noConfusion hp

theorem authenticate_body_none (cfg : Config)
    (ia : InitiateAuthParams → Outcome InitiateAuthResponse) (ev : Event)
    (hb : ev.body = none) :
    authenticate cfg ia ev = ⟨.ok ⟨400, jsonMessageBody "Missing body"⟩, []⟩ := by
  unfold authenticate
  rw [hb]

theorem register_body_none (cfg : Config) (su : SignUpParams → Outcome Unit)
    (ev : Event) (hb : ev.body = none) :
    register cfg su ev = ⟨.ok ⟨400, jsonMessageBody "Missing body"⟩, []⟩ := by
  unfold register
  rw [hb]

theorem confirm_body_none (cfg : Config) (cs : ConfirmSignUpParams → Outcome Unit)
    (ev : Event) (hb : ev.body = none) :
    confirm cfg cs ev = ⟨.ok ⟨400, jsonMessageBody "Missing body"⟩, []⟩ := by
  unfold confirm
  rw [hb]

theorem authenticate_missing_fields (cfg : Config)
    (ia : InitiateAuthParams → Outcome InitiateAuthResponse) (ev : Event)
    (bodyStr : String) (v : JsValue) (hb : ev.body = some bodyStr)
    (hp : parseJson bodyStr = .ok v) (hnn : v ≠ .null)
    (hcond : (!truthy (getFieldD v "username") || !truthy (getFieldD v "password")) = true) :
    authenticate cfg ia ev =
      ⟨.ok ⟨400, jsonMessageBody "Missing username or password"⟩, []⟩ := by
  have hnul : isNullish v = false :=
    isNullish_eq_false v hnn (parseJson_ne_undefined _ _ hp)
  unfold authenticate
  rw [hb]
  try dsimp only
  rw [if_neg (bodyStr_ne_empty hp), hp]
  try dsimp only
  rw [if_neg (show ¬ (isNullish v = true) by simp [hnul])]
  try dsimp only
  rw [if_pos hcond]

theorem register_missing_fields (cfg : Config) (su : SignUpParams → Outcome Unit)
    (ev : Event) (bodyStr : String) (v : JsValue) (hb : ev.body = some bodyStr)
    (hp : parseJson bodyStr = .ok v) (hnn : v ≠ .null)
    (hcond : (!truthy (getFieldD v "email") || !truthy (getFieldD v "username") ||
      !truthy (getFieldD v "password")) = true) :
    register cfg su ev =
      ⟨.ok ⟨400, jsonMessageBody "Missing email, username or password"⟩, []⟩ := by
  have hnul : isNullish v = false :=
    isNullish_eq_false v hnn (parseJson_ne_undefined _ _ hp)
  unfold register
  rw [hb]
  try dsimp only
  rw [if_neg (bodyStr_ne_empty hp), hp]
  try dsimp only
  rw [if_neg (show ¬ (isNullish v = true) by simp [hnul])]
  try dsimp only
  rw [if_pos hcond]

theorem confirm_missing_fields (cfg : Config) (cs : ConfirmSignUpParams → Outcome Unit)
    (ev : Event) (bodyStr : String) (v : JsValue) (hb : ev.body = some bodyStr)
    (hp : parseJson bodyStr = .ok v) (hnn : v ≠ .null)
    (hcond : (!truthy (getFieldD v "username") || !truthy (getFieldD v "code")) = true) :
    confirm cfg cs ev =
      ⟨.ok ⟨400, jsonMessageBody "Missing username or code"⟩, []⟩ := by
  have hnul : isNullish v = false :=
    isNullish_eq_false v hnn (parseJson_ne_undefined _ _ hp)
  unfold confirm
  rw [hb]
  try dsimp only
  rw [if_neg (bodyStr_ne_empty hp), hp]
  try dsimp only
  rw [if_neg (show ¬ (isNullish v = true) by simp [hnul])]
  try dsimp only
  rw [if_pos hcond]

theorem authenticate_valid_calls (cfg : Config)
    (ia : InitiateAuthParams → Outcome InitiateAuthResponse) (ev : Event)
    (bodyStr : String) (v : JsValue) (hb : ev.body = some bodyStr)
    (hp : parseJson bodyStr = .ok v) (hnn : v ≠ .null)
    (hcond : (truthy (getFieldD v "username") && truthy (getFieldD v "password")) = true) :
    (authenticate cfg ia ev).calls =
      [ProviderCall.initiateAuth ⟨"USER_PASSWORD_AUTH", cfg.clientId,
        getFieldD v "username", getFieldD v "password",
        calculateSecretHash cfg.clientSecret cfg.clientId
          (jsToString (getFieldD v "username"))⟩] := by
  have hnul : isNullish v = false :=
    isNullish_eq_false v hnn (parseJson_ne_undefined _ _ hp)
  unfold authenticate
  rw [hb]
  try dsimp only
  rw [if_neg (bodyStr_ne_empty hp), hp]
  try dsimp only
  rw [if_neg (show ¬ (isNullish v = true) by simp [hnul])]
  try dsimp only
  rw [if_neg (show ¬ ((!truthy (getFieldD v "username") ||
        !truthy (getFieldD v "password")) = true) by simp_all)]
  try dsimp only
  repeat' split
  all_goals rfl

theorem register_valid_calls (cfg : Config) (su : SignUpParams → Outcome Unit)
    (ev : Event) (bodyStr : String) (v : JsValue) (hb : ev.body = some bodyStr)
    (hp : parseJson bodyStr = .ok v) (hnn : v ≠ .null)
    (hcond : (truthy (getFieldD v "email") && truthy (getFieldD v "username") &&
      truthy (getFieldD v "password")) = true) :
    (register cfg su ev).calls =
      [ProviderCall.signUp ⟨cfg.clientId, getFieldD v "password",
        getFieldD v "username", getFieldD v "email",
        calculateSecretHash cfg.clientSecret cfg.clientId
          (jsToString (getFieldD v "username"))⟩] := by
  have hnul : isNullish v = false :=
    isNullish_eq_false v hnn (parseJson_ne_undefined _ _ hp)
  unfold register
  rw [hb]
  try dsimp only
  rw [if_neg (bodyStr_ne_empty hp), hp]
  try dsimp only
  rw [if_neg (show ¬ (isNullish v = true) by simp [hnul])]
  try dsimp only
  rw [if_neg (show ¬ ((!truthy (getFieldD v "email") ||
        !truthy (getFieldD v "username") ||
        !truthy (getFieldD v "password")) = true) by simp_all)]
  try dsimp only
  repeat' split
  all_goals rfl

theorem confirm_valid_calls (cfg : Config) (cs : ConfirmSignUpParams → Outcome Unit)
    (ev : Event) (bodyStr : String) (v : JsValue) (hb : ev.body = some bodyStr)
    (hp : parseJson bodyStr = .ok v) (hnn : v ≠ .null)
    (hcond : (truthy (getFieldD v "username") && truthy (getFieldD v "code")) = true) :
    (confirm cfg cs ev).calls =
      [ProviderCall.confirmSignUp ⟨cfg.clientId, getFieldD v "code",
        getFieldD v "username",
        calculateSecretHash cfg.clientSecret cfg.clientId
          (jsToString (getFieldD v "username"))⟩] := by
  have hnul : isNullish v = false :=
    isNullish_eq_false v hnn (parseJson_ne_undefined _ _ hp)
  unfold confirm
  rw [hb]
  try dsimp only
  rw [if_neg (bodyStr_ne_empty hp), hp]
  try dsimp only
  rw [if_neg (show ¬ (isNullish v = true) by simp [hnul])]
  try dsimp only
  rw [if_neg (show ¬ ((!truthy (getFieldD v "username") ||
        !truthy (getFieldD v "code")) = true) by simp_all)]
  try dsimp only
  repeat' split
  all_goals rfl

theorem not_or_of_and2_false {a b : Bool} (h : (a && b) = false) :
    (!a || !b) = true := by
  cases a <;> cases b <;> simp_all

theorem not_or_of_and3_false {a b c : Bool} (h : (a && b && c) = false) :
    (!a || !b || !c) = true := by
  cases a <;> cases b <;> cases c <;> simp_all

/-- C6 (amended): for authenticate, register and confirm: an absent body is
answered 400 "Missing body" with no provider call; a body parsing to a
non-null JSON value with a falsy required field is answered 400 with the
field-naming message, with no provider call. -/
theorem validation_failures_local (cfg : Config)
    (ia : InitiateAuthParams → Outcome InitiateAuthResponse)
    (su : SignUpParams → Outcome Unit) (cs : ConfirmSignUpParams → Outcome Unit)
    (ev : Event) :
    (ev.body = none →
      authenticate cfg ia ev = ⟨.ok ⟨400, jsonMessageBody "Missing body"⟩, []⟩ ∧
      register cfg su ev = ⟨.ok ⟨400, jsonMessageBody "Missing body"⟩, []⟩ ∧
      confirm cfg cs ev = ⟨.ok ⟨400, jsonMessageBody "Missing body"⟩, []⟩) ∧
    (∀ bodyStr v, ev.body = some bodyStr → parseJson bodyStr = Except.ok v →
      v ≠ JsValue.null →
      (((!truthy (getFieldD v "username") || !truthy (getFieldD v "password")) = true →
        authenticate cfg ia ev =
          ⟨.ok ⟨400, jsonMessageBody "Missing username or password"⟩, []⟩) ∧
       ((!truthy (getFieldD v "email") || !truthy (getFieldD v "username") ||
           !truthy (getFieldD v "password")) = true →
        register cfg su ev =
          ⟨.ok ⟨400, jsonMessageBody "Missing email, username or password"⟩, []⟩) ∧
       ((!truthy (getFieldD v "username") || !truthy (getFieldD v "code")) = true →
        confirm cfg cs ev =
          ⟨.ok ⟨400, jsonMessageBody "Missing username or code"⟩, []⟩))) :=
  ⟨fun hb => ⟨authenticate_body_none cfg ia ev hb,
     register_body_none cfg su ev hb, confirm_body_none cfg cs ev hb⟩,
   fun bodyStr v hb hp hnn =>
     ⟨fun hc => authenticate_missing_fields cfg ia ev bodyStr v hb hp hnn hc,
      fun hc => register_missing_fields cfg su ev bodyStr v hb hp hnn hc,
      fun hc => confirm_missing_fields cfg cs ev bodyStr v hb hp hnn hc⟩⟩

theorem validation_failures_local_witness :
    parseJson "\x7b\x7d" = Except.ok (JsValue.obj []) ∧
    authenticate ⟨"cid", "secret"⟩ (fun _ => Outcome.failure none)
        ⟨none, some "\x7b\x7d"⟩ =
      ⟨.ok ⟨400, jsonMessageBody "Missing username or password"⟩, []⟩ :=
  ⟨rfl,
   ((validation_failures_local ⟨"cid", "secret"⟩ (fun _ => Outcome.failure none)
      (fun _ => Outcome.failure none) (fun _ => Outcome.failure none)
      ⟨none, some "\x7b\x7d"⟩).2 "\x7b\x7d" (JsValue.obj [])
      rfl rfl (by simp)).1 rfl⟩

/-- C6 counterexample: a body parsing to JSON `null` makes authenticate throw
a `TypeError` (destructuring `null`) instead of returning the 400
missing-field response. -/
theorem authenticate_null_body_counterexample :
    parseJson "null" = Except.ok JsValue.null ∧
    (authenticate ⟨"cid", "secret"⟩ (fun _ => Outcome.failure none)
        ⟨none, some "null"⟩).result = Except.error JsError.typeError ∧
    (Except.error JsError.typeError : Except JsError Response) ≠
      Except.ok ⟨400, jsonMessageBody "Missing username or password"⟩ :=
  ⟨rfl, rfl, by simp⟩

/-- C10 (amended): for bodies parsing to a non-null value, the 400
missing-field response with an empty call trace is returned iff some required
field's parsed value is JS-falsy; when all required fields are truthy the
parsed values are forwarded to the provider as they are (no type check),
together with the derived secret hash. -/
theorem truthiness_validation (cfg : Config)
    (ia : InitiateAuthParams → Outcome InitiateAuthResponse)
    (su : SignUpParams → Outcome Unit) (cs : ConfirmSignUpParams → Outcome Unit)
    (ev : Event) (bodyStr : String) (v : JsValue) (hb : ev.body = some bodyStr)
    (hp : parseJson bodyStr = Except.ok v) (hnn : v ≠ JsValue.null) :
    ((authenticate cfg ia ev =
        ⟨.ok ⟨400, jsonMessageBody "Missing username or password"⟩, []⟩ ↔
      (truthy (getFieldD v "username") && truthy (getFieldD v "password")) = false) ∧
     ((truthy (getFieldD v "username") && truthy (getFieldD v "password")) = true →
      (authenticate cfg ia ev).calls =
        [ProviderCall.initiateAuth ⟨"USER_PASSWORD_AUTH", cfg.clientId,
          getFieldD v "username", getFieldD v "password",
          calculateSecretHash cfg.clientSecret cfg.clientId
            (jsToString (getFieldD v "username"))⟩])) ∧
    ((register cfg su ev =
        ⟨.ok ⟨400, jsonMessageBody "Missing email, username or password"⟩, []⟩ ↔
      (truthy (getFieldD v "email") && truthy (getFieldD v "username") &&
        truthy (getFieldD v "password")) = false) ∧
     ((truthy (getFieldD v "email") && truthy (getFieldD v "username") &&
        truthy (getFieldD v "password")) = true →
      (register cfg su ev).calls =
        [ProviderCall.signUp ⟨cfg.clientId, getFieldD v "password",
          getFieldD v "username", getFieldD v "email",
          calculateSecretHash cfg.clientSecret cfg.clientId
            (jsToString (getFieldD v "username"))⟩])) ∧
    ((confirm cfg cs ev =
        ⟨.ok ⟨400, jsonMessageBody "Missing username or code"⟩, []⟩ ↔
      (truthy (getFieldD v "username") && truthy (getFieldD v "code")) = false) ∧
     ((truthy (getFieldD v "username") && truthy (getFieldD v "code")) = true →
      (confirm cfg cs ev).calls =
        [ProviderCall.confirmSignUp ⟨cfg.clientId, getFieldD v "code",
          getFieldD v "username",
          calculateSecretHash cfg.clientSecret cfg.clientId
            (jsToString (getFieldD v "username"))⟩])) := by
  refine ⟨⟨?_, ?_⟩, ⟨?_, ?_⟩, ⟨?_, ?_⟩⟩
  · constructor
    · intro hrun
      cases hcb : (truthy (getFieldD v "username") && truthy (getFieldD v "password")) with
      | false => rfl
      | true =>
        exfalso
        have hcalls := authenticate_valid_calls cfg ia ev bodyStr v hb hp hnn hcb
        rw [hrun] at hcalls
        simp at hcalls
    · intro hcb
      exact authenticate_missing_fields cfg ia ev bodyStr v hb hp hnn
        (not_or_of_and2_false hcb)
  · exact authenticate_valid_calls cfg ia ev bodyStr v hb hp hnn
  · constructor
    · intro hrun
      cases hcb : (truthy (getFieldD v "email") && truthy (getFieldD v "username") &&
          truthy (getFieldD v "password")) with
      | false => rfl
      | true =>
        exfalso
        have hcalls := register_valid_calls cfg su ev bodyStr v hb hp hnn hcb
        rw [hrun] at hcalls
        simp at hcalls
    · intro hcb
      exact register_missing_fields cfg su ev bodyStr v hb hp hnn
        (not_or_of_and3_false hcb)
  · exact register_valid_calls cfg su ev bodyStr v hb hp hnn
  · constructor
    · intro hrun
      cases hcb : (truthy (getFieldD v "username") && truthy (getFieldD v "code")) with
      | false => rfl
      | true =>
        exfalso
        have hcalls := confirm_valid_calls cfg cs ev bodyStr v hb hp hnn hcb
        rw [hrun] at hcalls
        simp at hcalls
    · intro hcb
      exact confirm_missing_fields cfg cs ev bodyStr v hb hp hnn
        (not_or_of_and2_false hcb)
  · exact confirm_valid_calls cfg cs ev bodyStr v hb hp hnn

theorem truthiness_validation_witness :
    parseJson "\x7b\"username\":5,\"code\":true\x7d" =
      Except.ok (JsValue.obj [("username", JsValue.num 5), ("code", JsValue.bool true)]) ∧
    (confirm ⟨"cid", "secret"⟩ (fun _ => Outcome.failure none)
        ⟨none, some "\x7b\"username\":5,\"code\":true\x7d"⟩).calls =
      [ProviderCall.confirmSignUp ⟨"cid",
        getFieldD (JsValue.obj [("username", JsValue.num 5), ("code", JsValue.bool true)]) "code",
        getFieldD (JsValue.obj [("username", JsValue.num 5), ("code", JsValue.bool true)]) "username",
        calculateSecretHash "secret" "cid"
          (jsToString (getFieldD (JsValue.obj [("username", JsValue.num 5),
            ("code", JsValue.bool true)]) "username"))⟩] :=
  ⟨rfl,
   ((truthiness_validation ⟨"cid", "secret"⟩ (fun _ => Outcome.failure none)
      (fun _ => Outcome.failure none) (fun _ => Outcome.failure none)
      ⟨none, some "\x7b\"username\":5,\"code\":true\x7d"⟩
      "\x7b\"username\":5,\"code\":true\x7d"
      (JsValue.obj [("username", JsValue.num 5), ("code", JsValue.bool true)])
      rfl rfl (by simp)).2.2.2 rfl)⟩

/-- C10 counterexample: a body parsing to JSON `null` parses successfully yet
confirm neither returns the missing-field 400 nor forwards anything — it
throws a `TypeError`. -/
theorem confirm_null_body_counterexample :
    parseJson "null" = Except.ok JsValue.null ∧
    (confirm ⟨"cid", "secret"⟩ (fun _ => Outcome.failure none)
        ⟨none, some "null"⟩).result = Except.error JsError.typeError ∧
    (Except.error JsError.typeError : Except JsError Response) ≠
      Except.ok ⟨400, jsonMessageBody "Missing username or code"⟩ :=
  ⟨rfl, rfl, by simp⟩

/-- C1 (amended): authorize always returns a well-formed response; the three
body-reading handlers return a well-formed response whenever the body is
absent, empty, or parses to a non-null JSON value (a malformed body, or one
parsing to null, instead raises an uncaught exception). -/
theorem handlers_wellformed (cfg : Config) (g : String → Outcome Unit)
    (ia : InitiateAuthParams → Outcome InitiateAuthResponse)
    (su : SignUpParams → Outcome Unit) (cs : ConfirmSignUpParams → Outcome Unit)
    (ev : Event) :
    resultOk (authorize g ev).result = true ∧
    ((∀ s, ev.body = some s → s ≠ "" →
        ∃ v, parseJson s = Except.ok v ∧ v ≠ JsValue.null) →
      resultOk (authenticate cfg ia ev).result = true ∧
      resultOk (register cfg su ev).result = true ∧
      resultOk (confirm cfg cs ev).result = true) := by
  constructor
  · unfold authorize
    repeat' (first | split | dsimp only)
    all_goals rfl
  · intro hbody
    refine ⟨?_, ?_, ?_⟩
    · rcases hb : ev.body with _ | s
      · rw [authenticate_body_none cfg ia ev hb]
        try rfl
      · by_cases hs : s = ""
        · subst hs
          unfold authenticate
          rw [hb]
          try rfl
        · obtain ⟨v, hp, hnn⟩ := hbody s hb hs
          have hnul : isNullish v = false :=
            isNullish_eq_false v hnn (parseJson_ne_undefined _ _ hp)
          unfold authenticate
          rw [hb]
          try dsimp only
          rw [if_neg hs, hp]
          try dsimp only
          rw [if_neg (show ¬ (isNullish v = true) by simp [hnul])]
          try dsimp only
          repeat' split
          all_goals rfl
    · rcases hb : ev.body with _ | s
      · rw [register_body_none cfg su ev hb]
        try rfl
      · by_cases hs : s = ""
        · subst hs
          unfold register
          rw [hb]
          try rfl
        · obtain ⟨v, hp, hnn⟩ := hbody s hb hs
          have hnul : isNullish v = false :=
            isNullish_eq_false v hnn (parseJson_ne_undefined _ _ hp)
          unfold register
          rw [hb]
          try dsimp only
          rw [if_neg hs, hp]
          try dsimp only
          rw [if_neg (show ¬ (isNullish v = true) by simp [hnul])]
          try dsimp only
          repeat' split
          all_goals rfl
    · rcases hb : ev.body with _ | s
      · rw [confirm_body_none cfg cs ev hb]
        try rfl
      · by_cases hs : s = ""
        · subst hs
          unfold confirm
          rw [hb]
          try rfl
        · obtain ⟨v, hp, hnn⟩ := hbody s hb hs
          have hnul : isNullish v = false :=
            isNullish_eq_false v hnn (parseJson_ne_undefined _ _ hp)
          unfold confirm
          rw [hb]
          try dsimp only
          rw [if_neg hs, hp]
          try dsimp only
          rw [if_neg (show ¬ (isNullish v = true) by simp [hnul])]
          try dsimp only
          repeat' split
          all_goals rfl

theorem handlers_wellformed_witness :
    resultOk (authorize (fun _ => Outcome.failure none) ⟨none, some "\x7b\x7d"⟩).result = true ∧
    (resultOk (authenticate ⟨"cid", "secret"⟩ (fun _ => Outcome.failure none)
        ⟨none, some "\x7b\x7d"⟩).result = true ∧
     resultOk (register ⟨"cid", "secret"⟩ (fun _ => Outcome.failure none)
        ⟨none, some "\x7b\x7d"⟩).result = true ∧
     resultOk (confirm ⟨"cid", "secret"⟩ (fun _ => Outcome.failure none)
        ⟨none, some "\x7b\x7d"⟩).result = true) :=
  ⟨(handlers_wellformed ⟨"cid", "secret"⟩ (fun _ => Outcome.failure none)
      (fun _ => Outcome.failure none) (fun _ => Outcome.failure none)
      (fun _ => Outcome.failure none) ⟨none, some "\x7b\x7d"⟩).1,
   (handlers_wellformed ⟨"cid", "secret"⟩ (fun _ => Outcome.failure none)
      (fun _ => Outcome.failure none) (fun _ => Outcome.failure none)
      (fun _ => Outcome.failure none) ⟨none, some "\x7b\x7d"⟩).2
     (fun s hs hne => by
       injection hs with hs
       subst hs
       exact ⟨JsValue.obj [], rfl, by simp⟩)⟩

/-- C1 counterexample: a present but malformed body makes authenticate throw
an uncaught `SyntaxError` (`JSON.parse` is outside the `try` block) instead
of returning a client-error response. -/
theorem authenticate_malformed_body_counterexample :
    (authenticate ⟨"cid", "secret"⟩ (fun _ => Outcome.failure none)
        ⟨none, some "\x7b"⟩).result = Except.error JsError.parseError ∧
    resultOk (authenticate ⟨"cid", "secret"⟩ (fun _ => Outcome.failure none)
        ⟨none, some "\x7b"⟩).result = false :=
  ⟨rfl, rfl⟩

theorem handlers_status_codes_witness :
    (authorize (fun _ => Outcome.success ()) ⟨none, none⟩).result
      = Except.ok ⟨401, jsonMessageBody "Missing Authorization header"⟩ ∧
    ((⟨401, jsonMessageBody "Missing Authorization header"⟩ : Response).statusCode = 200 ∨
     (⟨401, jsonMessageBody "Missing Authorization header"⟩ : Response).statusCode = 401) :=
  ⟨rfl,
   (handlers_status_codes ⟨"cid", "secret"⟩ (fun _ => Outcome.success ())
      (fun _ => Outcome.failure none) (fun _ => Outcome.failure none)
      (fun _ => Outcome.failure none) ⟨none, none⟩).1
     ⟨401, jsonMessageBody "Missing Authorization header"⟩ rfl⟩

end TCAuth
